import Mathlib

/-!
# Platform shim over the native windowing library (`src/platform/glfw.h`)

A shallow embedding of the shim.  Pointers are natural numbers with `0` for
`NULL`; C `int` values are integers; `u32` values are naturals below `2^32`;
a `double` is carried as its IEEE-754 bit pattern.  The native library is an
oracle record (`Native`) giving the value each native query returns, and every
native request the shim issues is appended to a log of `NativeCall`s.  A fatal
`lovrThrow` is the `error` side of `Except`.
-/

namespace Glfw

/-! ## Machine types -/

/-- Pointer values; `0` is `NULL`. -/
abbrev Ptr := Nat

/-- Bit pattern of a `double`. -/
abbrev F64 := Nat

/-- The `double` literal `0.`: positive zero has the all-zero bit pattern. -/
def f64Zero : F64 := 0

/-- Conversion `(u32) x` of a C `int`: reduction modulo `2^32`. -/
def toU32 (x : Int) : Nat := (x % 4294967296).toNat

/-- Conversion `(i32) x` of a `u32`: values from `2^31` up wrap to negatives. -/
def toI32 (x : Nat) : Int :=
  if x % 4294967296 < 2147483648 then ((x % 4294967296 : Nat) : Int)
  else ((x % 4294967296 : Nat) : Int) - 4294967296

/-! ## Constants of the native library header (`GLFW/glfw3.h`) -/

def GLFW_TRUE : Int := 1
def GLFW_FALSE : Int := 0
def GLFW_PRESS : Int := 1
def GLFW_MOUSE_BUTTON_LEFT : Int := 0
def GLFW_MOUSE_BUTTON_RIGHT : Int := 1
def GLFW_KEY_W : Int := 87
def GLFW_KEY_A : Int := 65
def GLFW_KEY_S : Int := 83
def GLFW_KEY_D : Int := 68
def GLFW_KEY_Q : Int := 81
def GLFW_KEY_E : Int := 69
def GLFW_KEY_RIGHT : Int := 262
def GLFW_KEY_LEFT : Int := 263
def GLFW_KEY_DOWN : Int := 264
def GLFW_KEY_UP : Int := 265
def GLFW_RESIZABLE : Int := 0x00020003
def GLFW_RED_BITS : Int := 0x00021001
def GLFW_GREEN_BITS : Int := 0x00021002
def GLFW_BLUE_BITS : Int := 0x00021003
def GLFW_SAMPLES : Int := 0x0002100D
def GLFW_SRGB_CAPABLE : Int := 0x0002100E
def GLFW_REFRESH_RATE : Int := 0x0002100F
def GLFW_CONTEXT_VERSION_MAJOR : Int := 0x00022002
def GLFW_CONTEXT_VERSION_MINOR : Int := 0x00022003
def GLFW_OPENGL_FORWARD_COMPAT : Int := 0x00022006
def GLFW_OPENGL_PROFILE : Int := 0x00022008
def GLFW_OPENGL_CORE_PROFILE : Int := 0x00032001
def GLFW_CURSOR : Int := 0x00033001
def GLFW_CURSOR_NORMAL : Int := 0x00034001
def GLFW_CURSOR_DISABLED : Int := 0x00034003

/-! ## Engine-facing enumerations and the flags record

These are declared in the platform header, which is not part of the source
tree at hand; only their uses in `glfw.h` are. -/

/-- Modelled from the spec: the `MouseButton` enumeration of the absent platform
header ("left/right mouse buttons").  A C enumeration value is an integer, so
values outside the enumerators exist. -/
abbrev MouseButton := Int

/-- Modelled from the spec: enumerator of `MouseButton` (absent platform header),
numbered in declaration order. -/
def MOUSE_LEFT : MouseButton := 0
/-- Modelled from the spec: enumerator of `MouseButton` (absent platform header),
numbered in declaration order. -/
def MOUSE_RIGHT : MouseButton := 1

/-- Modelled from the spec: the `ButtonAction` enumeration of the absent platform
header ("a press/release action"). -/
abbrev ButtonAction := Int

/-- Modelled from the spec: enumerator of `ButtonAction` (absent platform header). -/
def BUTTON_PRESSED : ButtonAction := 0
/-- Modelled from the spec: enumerator of `ButtonAction` (absent platform header). -/
def BUTTON_RELEASED : ButtonAction := 1

/-- Modelled from the spec: the `MouseMode` enumeration of the absent platform
header ("`NORMAL` ... or `GRABBED`"). -/
abbrev MouseMode := Int

/-- Modelled from the spec: enumerator of `MouseMode` (absent platform header). -/
def MOUSE_MODE_NORMAL : MouseMode := 0
/-- Modelled from the spec: enumerator of `MouseMode` (absent platform header). -/
def MOUSE_MODE_GRABBED : MouseMode := 1

/-- Modelled from the spec: the `KeyCode` enumeration of the absent platform
header ("W A S D Q E and arrow keys").  A C enumeration value is an integer, so
values outside the enumerators exist. -/
abbrev KeyCode := Int

/-- Modelled from the spec: enumerator of `KeyCode` (absent platform header). -/
def KEY_W : KeyCode := 0
/-- Modelled from the spec: enumerator of `KeyCode` (absent platform header). -/
def KEY_A : KeyCode := 1
/-- Modelled from the spec: enumerator of `KeyCode` (absent platform header). -/
def KEY_S : KeyCode := 2
/-- Modelled from the spec: enumerator of `KeyCode` (absent platform header). -/
def KEY_D : KeyCode := 3
/-- Modelled from the spec: enumerator of `KeyCode` (absent platform header). -/
def KEY_Q : KeyCode := 4
/-- Modelled from the spec: enumerator of `KeyCode` (absent platform header). -/
def KEY_E : KeyCode := 5
/-- Modelled from the spec: enumerator of `KeyCode` (absent platform header). -/
def KEY_UP : KeyCode := 6
/-- Modelled from the spec: enumerator of `KeyCode` (absent platform header). -/
def KEY_DOWN : KeyCode := 7
/-- Modelled from the spec: enumerator of `KeyCode` (absent platform header). -/
def KEY_LEFT : KeyCode := 8
/-- Modelled from the spec: enumerator of `KeyCode` (absent platform header). -/
def KEY_RIGHT : KeyCode := 9

/-- Modelled from the spec: the `icon` member of `WindowFlags` (absent platform
header): "optional bitmap (pixel buffer + width/height)". -/
structure Icon where
  data : Ptr
  width : Nat
  height : Nat
  deriving DecidableEq, Repr

/-- Modelled from the spec: the `WindowFlags` record of the absent platform
header, with the members `glfw.h` reads: `width`, `height` (`u32`, cast to `i32`
by the shim), `fullscreen`, `srgb`, `vsync`, `msaa`, `title`, `icon`. -/
structure WindowFlags where
  width : Nat
  height : Nat
  fullscreen : Bool
  srgb : Bool
  vsync : Bool
  msaa : Int
  title : String
  icon : Icon
  deriving DecidableEq, Repr

/-! ## The native library as an oracle, and the log of requests -/

/-- The native video-mode record (`GLFWvidmode`). -/
structure GLFWvidmode where
  width : Int
  height : Int
  redBits : Int
  greenBits : Int
  blueBits : Int
  refreshRate : Int
  deriving DecidableEq, Repr

/-- A native event as the library hands it to the installed handlers. -/
inductive NativeEvent where
  | close (window : Ptr)
  | resize (window : Ptr) (width height : Int)
  | mouseButton (window : Ptr) (b a mods : Int)
  deriving DecidableEq, Repr

/-- What the native library answers to each query of the shim. -/
structure Native where
  glfwInit : Int
  glfwGetTime : F64
  glfwGetPrimaryMonitor : Ptr
  glfwGetVideoMode : Ptr → GLFWvidmode
  glfwCreateWindow : Int → Int → String → Ptr → Ptr → Ptr
  glfwGetWindowSize : Ptr → Int × Int
  glfwGetFramebufferSize : Ptr → Int × Int
  glfwGetCursorPos : Ptr → F64 × F64
  glfwGetMouseButton : Ptr → Int → Int
  glfwGetKey : Ptr → Int → Int
  pending : List NativeEvent

/-- A request issued to the native library that changes the native side. -/
inductive NativeCall where
  | setErrorCallback
  | init
  | terminate
  | pollEvents
  | setTime (t : F64)
  | windowHint (hint value : Int)
  | createWindow (width height : Int) (title : String) (monitor share : Ptr)
  | setWindowIcon (window : Ptr) (count : Int) (pixels : Ptr) (width height : Int)
  | makeContextCurrent (window : Ptr)
  | setWindowCloseCallback (window : Ptr)
  | setWindowSizeCallback (window : Ptr)
  | setMouseButtonCallback (window : Ptr)
  | swapInterval (interval : Int)
  | swapBuffers (window : Ptr)
  | setInputMode (window : Ptr) (mode value : Int)
  deriving DecidableEq, Repr

/-- An invocation of an engine callback; `fn` is the function pointer called. -/
inductive Invocation where
  | windowClose (fn : Ptr)
  | windowResize (fn : Ptr) (width height : Nat)
  | mouseButton (fn : Ptr) (button : MouseButton) (action : ButtonAction)
  deriving DecidableEq, Repr

/-! ## The state record -/

/-- The file-level `state` record. -/
structure State where
  window : Ptr
  onWindowClose : Ptr
  onWindowResize : Ptr
  onMouseButton : Ptr
  deriving DecidableEq, Repr

/-- The zero-initialised static `state`. -/
def State.initial : State := ⟨0, 0, 0, 0⟩

/-- Result of an operation that may write `state` and issue native requests. -/
structure Out (α : Type) where
  ret : α
  state : State
  calls : List NativeCall
  deriving DecidableEq, Repr

/-- A C `bool` passed where the native library takes an `int`. -/
def boolToInt (b : Bool) : Int := if b then 1 else 0

/-! ## Event handlers installed into the native library -/

/-- Handler `onWindowClose`: calls the close slot when it is set. -/
def onWindowClose (s : State) (_window : Ptr) : List Invocation :=
  if s.onWindowClose ≠ 0 then [Invocation.windowClose s.onWindowClose] else []

/-- Handler `onWindowResize`: calls the resize slot, when set, with both
arguments cast to `u32`. -/
def onWindowResize (s : State) (_window : Ptr) (width height : Int) : List Invocation :=
  if s.onWindowResize ≠ 0 then
    [Invocation.windowResize s.onWindowResize (toU32 width) (toU32 height)]
  else []

/-- Handler `onMouseButton`: calls the mouse-button slot, when set, for the
native left and right buttons only. -/
def onMouseButton (s : State) (_window : Ptr) (b a _mods : Int) : List Invocation :=
  if s.onMouseButton ≠ 0 ∧ (b = GLFW_MOUSE_BUTTON_LEFT ∨ b = GLFW_MOUSE_BUTTON_RIGHT) then
    let button : MouseButton := if b = GLFW_MOUSE_BUTTON_LEFT then MOUSE_LEFT else MOUSE_RIGHT
    let action : ButtonAction := if a = GLFW_PRESS then BUTTON_PRESSED else BUTTON_RELEASED
    [Invocation.mouseButton s.onMouseButton button action]
  else []

/-- The native library handing one event to the handler installed for its kind. -/
def dispatch (s : State) : NativeEvent → List Invocation
  | NativeEvent.close w => onWindowClose s w
  | NativeEvent.resize w width height => onWindowResize s w width height
  | NativeEvent.mouseButton w b a mods => onMouseButton s w b a mods

/-! ## Enumeration conversion -/

/-- Function `convertMouseButton`; the `default` arm is the fatal `lovrThrow`. -/
def convertMouseButton (button : MouseButton) : Except String Int :=
  if button = MOUSE_LEFT then Except.ok GLFW_MOUSE_BUTTON_LEFT
  else if button = MOUSE_RIGHT then Except.ok GLFW_MOUSE_BUTTON_RIGHT
  else Except.error "Unreachable"

/-- Function `convertKeyCode`; the `default` arm is the fatal `lovrThrow`. -/
def convertKeyCode (key : KeyCode) : Except String Int :=
  if key = KEY_W then Except.ok GLFW_KEY_W
  else if key = KEY_A then Except.ok GLFW_KEY_A
  else if key = KEY_S then Except.ok GLFW_KEY_S
  else if key = KEY_D then Except.ok GLFW_KEY_D
  else if key = KEY_Q then Except.ok GLFW_KEY_Q
  else if key = KEY_E then Except.ok GLFW_KEY_E
  else if key = KEY_UP then Except.ok GLFW_KEY_UP
  else if key = KEY_DOWN then Except.ok GLFW_KEY_DOWN
  else if key = KEY_LEFT then Except.ok GLFW_KEY_LEFT
  else if key = KEY_RIGHT then Except.ok GLFW_KEY_RIGHT
  else Except.error "Unreachable"

/-! ## Operations of the shim -/

/-- Function `lovrPlatformInit`. -/
def lovrPlatformInit (n : Native) (s : State) : Out Bool :=
  ⟨decide (n.glfwInit ≠ 0), s, [NativeCall.setErrorCallback, NativeCall.init]⟩

/-- Function `lovrPlatformDestroy`: the body is the single native call. -/
def lovrPlatformDestroy (s : State) : Out Unit :=
  ⟨(), s, [NativeCall.terminate]⟩

/-- Function `lovrPlatformPollEvents`: the native library delivers its pending
events to the installed handlers; the result is the engine callbacks invoked. -/
def lovrPlatformPollEvents (n : Native) (s : State) : Out (List Invocation) :=
  ⟨n.pending.flatMap (dispatch s), s, [NativeCall.pollEvents]⟩

/-- Function `lovrPlatformGetTime`. -/
def lovrPlatformGetTime (n : Native) : F64 := n.glfwGetTime

/-- Function `lovrPlatformSetTime`. -/
def lovrPlatformSetTime (s : State) (t : F64) : Out Unit :=
  ⟨(), s, [NativeCall.setTime t]⟩

/-- The window hints issued before the monitor is looked up. -/
def baseHints (flags : WindowFlags) : List NativeCall :=
  [ NativeCall.windowHint GLFW_CONTEXT_VERSION_MAJOR 3,
    NativeCall.windowHint GLFW_CONTEXT_VERSION_MINOR 3,
    NativeCall.windowHint GLFW_OPENGL_PROFILE GLFW_OPENGL_CORE_PROFILE,
    NativeCall.windowHint GLFW_OPENGL_FORWARD_COMPAT GLFW_TRUE,
    NativeCall.windowHint GLFW_SAMPLES flags.msaa,
    NativeCall.windowHint GLFW_RESIZABLE GLFW_FALSE,
    NativeCall.windowHint GLFW_SRGB_CAPABLE (boolToInt flags.srgb) ]

/-- The window hints issued under `if (flags->fullscreen)`. -/
def fullscreenHints (mode : GLFWvidmode) : List NativeCall :=
  [ NativeCall.windowHint GLFW_RED_BITS mode.redBits,
    NativeCall.windowHint GLFW_GREEN_BITS mode.greenBits,
    NativeCall.windowHint GLFW_BLUE_BITS mode.blueBits,
    NativeCall.windowHint GLFW_REFRESH_RATE mode.refreshRate ]

/-- The local `mode` of `lovrPlatformCreateWindow`: the current video mode of
the primary monitor. -/
def createMode (n : Native) : GLFWvidmode := n.glfwGetVideoMode n.glfwGetPrimaryMonitor

/-- The local `width` of `lovrPlatformCreateWindow`. -/
def createWidth (n : Native) (flags : WindowFlags) : Int :=
  if flags.width ≠ 0 then toI32 flags.width else (createMode n).width

/-- The local `height` of `lovrPlatformCreateWindow`. -/
def createHeight (n : Native) (flags : WindowFlags) : Int :=
  if flags.height ≠ 0 then toI32 flags.height else (createMode n).height

/-- The monitor argument `flags->fullscreen ? monitor : NULL`. -/
def createMonitor (n : Native) (flags : WindowFlags) : Ptr :=
  if flags.fullscreen then n.glfwGetPrimaryMonitor else 0

/-- The handle the native library answers to the creation request. -/
def createdWindow (n : Native) (flags : WindowFlags) : Ptr :=
  n.glfwCreateWindow (createWidth n flags) (createHeight n flags) flags.title
    (createMonitor n flags) 0

/-- The native requests up to and including `glfwCreateWindow`. -/
def createRequests (n : Native) (flags : WindowFlags) : List NativeCall :=
  baseHints flags ++ (if flags.fullscreen then fullscreenHints (createMode n) else []) ++
    [NativeCall.createWindow (createWidth n flags) (createHeight n flags) flags.title
      (createMonitor n flags) 0]

/-- The native requests issued once the window exists. -/
def setupRequests (flags : WindowFlags) (window : Ptr) : List NativeCall :=
  (if flags.icon.data ≠ 0 then
    [NativeCall.setWindowIcon window 1 flags.icon.data
      (toI32 flags.icon.width) (toI32 flags.icon.height)]
  else []) ++
  [ NativeCall.makeContextCurrent window,
    NativeCall.setWindowCloseCallback window,
    NativeCall.setWindowSizeCallback window,
    NativeCall.setMouseButtonCallback window,
    NativeCall.swapInterval (boolToInt flags.vsync) ]

/-- Function `lovrPlatformCreateWindow`. -/
def lovrPlatformCreateWindow (n : Native) (flags : WindowFlags) (s : State) : Out Bool :=
  if s.window ≠ 0 then ⟨true, s, []⟩
  else
    let s1 : State := { s with window := createdWindow n flags }
    if s1.window = 0 then ⟨false, s1, createRequests n flags⟩
    else ⟨true, s1, createRequests n flags ++ setupRequests flags s1.window⟩

/-- Function `lovrPlatformHasWindow`: the handle converted to `bool`. -/
def lovrPlatformHasWindow (s : State) : Bool := decide (s.window ≠ 0)

/-- Function `lovrPlatformGetWindowSize`; the arguments are the values the two
output locations hold on entry, the result the values they hold on return. -/
def lovrPlatformGetWindowSize (n : Native) (s : State) (width height : Nat) : Nat × Nat :=
  if s.window ≠ 0 then
    let wh := n.glfwGetWindowSize s.window
    (toU32 wh.1, toU32 wh.2)
  else
    (if width ≠ 0 then 0 else width, if height ≠ 0 then 0 else height)

/-- Function `lovrPlatformGetFramebufferSize`; arguments and result as for
`lovrPlatformGetWindowSize`. -/
def lovrPlatformGetFramebufferSize (n : Native) (s : State) (width height : Nat) : Nat × Nat :=
  if s.window ≠ 0 then
    let wh := n.glfwGetFramebufferSize s.window
    (toU32 wh.1, toU32 wh.2)
  else
    (if width ≠ 0 then 0 else width, if height ≠ 0 then 0 else height)

/-- Function `lovrPlatformSwapBuffers`. -/
def lovrPlatformSwapBuffers (s : State) : Out Unit :=
  ⟨(), s, [NativeCall.swapBuffers s.window]⟩

/-- Function `lovrPlatformOnWindowClose`. -/
def lovrPlatformOnWindowClose (callback : Ptr) (s : State) : State :=
  { s with onWindowClose := callback }

/-- Function `lovrPlatformOnWindowResize`. -/
def lovrPlatformOnWindowResize (callback : Ptr) (s : State) : State :=
  { s with onWindowResize := callback }

/-- Function `lovrPlatformOnMouseButton`. -/
def lovrPlatformOnMouseButton (callback : Ptr) (s : State) : State :=
  { s with onMouseButton := callback }

/-- Function `lovrPlatformGetMousePosition`; the arguments are the values the two
output locations hold on entry, the result the values they hold on return. -/
def lovrPlatformGetMousePosition (n : Native) (s : State) (_x _y : F64) : F64 × F64 :=
  if s.window ≠ 0 then n.glfwGetCursorPos s.window
  else (f64Zero, f64Zero)

/-- Function `lovrPlatformSetMouseMode`. -/
def lovrPlatformSetMouseMode (mode : MouseMode) (s : State) : Out Unit :=
  if s.window ≠ 0 then
    let m : Int := if mode = MOUSE_MODE_GRABBED then GLFW_CURSOR_DISABLED else GLFW_CURSOR_NORMAL
    ⟨(), s, [NativeCall.setInputMode s.window GLFW_CURSOR m]⟩
  else ⟨(), s, []⟩

/-- Function `lovrPlatformIsMouseDown`: the conversion runs, as an argument of
the native query, only in the branch taken when a window is held. -/
def lovrPlatformIsMouseDown (n : Native) (s : State) (button : MouseButton) : Except String Bool :=
  if s.window ≠ 0 then
    match convertMouseButton button with
    | Except.ok b => Except.ok (decide (n.glfwGetMouseButton s.window b = GLFW_PRESS))
    | Except.error e => Except.error e
  else Except.ok false

/-- Function `lovrPlatformIsKeyDown`: the conversion runs, as an argument of the
native query, only in the branch taken when a window is held. -/
def lovrPlatformIsKeyDown (n : Native) (s : State) (key : KeyCode) : Except String Bool :=
  if s.window ≠ 0 then
    match convertKeyCode key with
    | Except.ok k => Except.ok (decide (n.glfwGetKey s.window k = GLFW_PRESS))
    | Except.error e => Except.error e
  else Except.ok false

/-! ## Sequences of operations -/

/-- One call of an operation of the shim, with its arguments. -/
inductive Op where
  | init
  | destroy
  | pollEvents
  | getTime
  | setTime (t : F64)
  | createWindow (flags : WindowFlags)
  | hasWindow
  | getWindowSize (width height : Nat)
  | getFramebufferSize (width height : Nat)
  | swapBuffers
  | onWindowClose (callback : Ptr)
  | onWindowResize (callback : Ptr)
  | onMouseButton (callback : Ptr)
  | getMousePosition (x y : F64)
  | setMouseMode (mode : MouseMode)
  | isMouseDown (button : MouseButton)
  | isKeyDown (key : KeyCode)
  deriving DecidableEq, Repr

/-- The state record after one operation.  Operations that only read `state`
(the queries, including one that ends in the fatal error) leave it as it is. -/
def step (n : Native) (op : Op) (s : State) : State :=
  match op with
  | Op.init => (lovrPlatformInit n s).state
  | Op.destroy => (lovrPlatformDestroy s).state
  | Op.pollEvents => (lovrPlatformPollEvents n s).state
  | Op.getTime => s
  | Op.setTime t => (lovrPlatformSetTime s t).state
  | Op.createWindow flags => (lovrPlatformCreateWindow n flags s).state
  | Op.hasWindow => s
  | Op.getWindowSize _ _ => s
  | Op.getFramebufferSize _ _ => s
  | Op.swapBuffers => (lovrPlatformSwapBuffers s).state
  | Op.onWindowClose cb => lovrPlatformOnWindowClose cb s
  | Op.onWindowResize cb => lovrPlatformOnWindowResize cb s
  | Op.onMouseButton cb => lovrPlatformOnMouseButton cb s
  | Op.getMousePosition _ _ => s
  | Op.setMouseMode mode => (lovrPlatformSetMouseMode mode s).state
  | Op.isMouseDown _ => s
  | Op.isKeyDown _ => s

/-- The state record after a sequence of operations; each operation comes with
the answers the native library gives during it. -/
def run (s : State) : List (Native × Op) → State
  | [] => s
  | (n, op) :: rest => run (step n op s) rest

/-- A registration of an engine callback. -/
inductive Registration where
  | close (callback : Ptr)
  | resize (callback : Ptr)
  | mouse (callback : Ptr)
  deriving DecidableEq, Repr

/-- The registration function called for each kind. -/
def register (s : State) : Registration → State
  | Registration.close cb => lovrPlatformOnWindowClose cb s
  | Registration.resize cb => lovrPlatformOnWindowResize cb s
  | Registration.mouse cb => lovrPlatformOnMouseButton cb s

/-- A sequence of registrations, applied left to right. -/
def registerAll (s : State) (rs : List Registration) : State := rs.foldl register s

/-- Whether a registration is for the close event. -/
def Registration.isClose : Registration → Bool
  | Registration.close _ => true
  | _ => false

/-- Whether a registration is for the resize event. -/
def Registration.isResize : Registration → Bool
  | Registration.resize _ => true
  | _ => false

/-- Whether a registration is for the mouse-button event. -/
def Registration.isMouse : Registration → Bool
  | Registration.mouse _ => true
  | _ => false

/-! ## Specification-side definitions -/

/-- The size query as the specification words it: "simply write 0
unconditionally when no window exists". -/
def getSizeSpec (native : Ptr → Int × Int) (s : State) (_width _height : Nat) : Nat × Nat :=
  if s.window ≠ 0 then (toU32 (native s.window).1, toU32 (native s.window).2) else (0, 0)

/-! ## Sample inputs -/

/-- A 1920x1080 mode at 60 Hz. -/
def sampleMode : GLFWvidmode := ⟨1920, 1080, 8, 8, 8, 60⟩

/-- A native library on which window creation succeeds with handle `200`. -/
def nativeOk : Native where
  glfwInit := 1
  glfwGetTime := 0
  glfwGetPrimaryMonitor := 100
  glfwGetVideoMode := fun _ => sampleMode
  glfwCreateWindow := fun _ _ _ _ _ => 200
  glfwGetWindowSize := fun _ => (800, 600)
  glfwGetFramebufferSize := fun _ => (1600, 1200)
  glfwGetCursorPos := fun _ => (0, 0)
  glfwGetMouseButton := fun _ _ => 0
  glfwGetKey := fun _ _ => 0
  pending := []

/-- A native library on which window creation fails. -/
def nativeFail : Native := { nativeOk with glfwCreateWindow := fun _ _ _ _ _ => 0 }

/-- Windowed 800x600 flags without an icon. -/
def sampleFlags : WindowFlags := ⟨800, 600, false, false, true, 4, "demo", ⟨0, 0, 0⟩⟩

/-- Fullscreen flags that also carry a width and height of 800x600. -/
def fullscreenFlags : WindowFlags := ⟨800, 600, true, false, true, 4, "demo", ⟨0, 0, 0⟩⟩

/-- A state that holds window `200` and no callbacks. -/
def heldState : State := ⟨200, 0, 0, 0⟩

/-! ## Theorems -/

/-- C1 (as stated, refuted): with no window held, both queries return `false`
for a value outside the supported set instead of ending in the fatal error. -/
theorem isDown_unsupported_no_window_returns_false :
    (2 : MouseButton) ≠ MOUSE_LEFT ∧ (2 : MouseButton) ≠ MOUSE_RIGHT ∧
    lovrPlatformIsMouseDown nativeOk State.initial 2 = Except.ok false ∧
    (∀ k ∈ [KEY_W, KEY_A, KEY_S, KEY_D, KEY_Q, KEY_E, KEY_UP, KEY_DOWN, KEY_LEFT, KEY_RIGHT],
      (10 : KeyCode) ≠ k) ∧
    lovrPlatformIsKeyDown nativeOk State.initial 10 = Except.ok false := by
  refine ⟨by decide, by decide, rfl, by decide, rfl⟩

/-- C1 (amended): in every state that holds a window, `lovrPlatformIsMouseDown`
ends in the fatal "Unreachable" error for every button other than `MOUSE_LEFT`
and `MOUSE_RIGHT`, and `lovrPlatformIsKeyDown` does for every key outside the ten
supported ones; in every state that holds no window both return `false` for
every value. -/
theorem isDown_unsupported_fatal_when_window_held (n : Native) (s : State) :
    (s.window ≠ 0 → ∀ button : MouseButton, button ≠ MOUSE_LEFT → button ≠ MOUSE_RIGHT →
      lovrPlatformIsMouseDown n s button = Except.error "Unreachable") ∧
    (s.window ≠ 0 → ∀ key : KeyCode,
      (∀ k ∈ [KEY_W, KEY_A, KEY_S, KEY_D, KEY_Q, KEY_E, KEY_UP, KEY_DOWN, KEY_LEFT, KEY_RIGHT],
        key ≠ k) →
      lovrPlatformIsKeyDown n s key = Except.error "Unreachable") ∧
    (s.window = 0 → ∀ button : MouseButton,
      lovrPlatformIsMouseDown n s button = Except.ok false) ∧
    (s.window = 0 → ∀ key : KeyCode, lovrPlatformIsKeyDown n s key = Except.ok false) := by
  refine ⟨?_, ?_, ?_, ?_⟩
  · intro hw button hl hr
    simp [lovrPlatformIsMouseDown, convertMouseButton, hw, hl, hr]
  · intro hw key hk
    simp only [List.mem_cons, List.mem_singleton, List.not_mem_nil, or_false, forall_eq_or_imp,
      forall_eq] at hk
    obtain ⟨h1, h2, h3, h4, h5, h6, h7, h8, h9, h10⟩ := hk
    simp [lovrPlatformIsKeyDown, convertKeyCode, hw, h1, h2, h3, h4, h5, h6, h7, h8, h9, h10]
  · intro hw button
    simp [lovrPlatformIsMouseDown, hw]
  · intro hw key
    simp [lovrPlatformIsKeyDown, hw]

/-- Witness for C1 (amended): the state holding window `200`, button `2`,
key `10`; and the initial state. -/
theorem isDown_unsupported_fatal_when_window_held_witness :
    lovrPlatformIsMouseDown nativeOk heldState 2 = Except.error "Unreachable" ∧
    lovrPlatformIsKeyDown nativeOk heldState 10 = Except.error "Unreachable" ∧
    lovrPlatformIsMouseDown nativeOk State.initial 2 = Except.ok false ∧
    lovrPlatformIsKeyDown nativeOk State.initial 10 = Except.ok false :=
  ⟨(isDown_unsupported_fatal_when_window_held nativeOk heldState).1 (by decide) 2
      (by decide) (by decide),
    (isDown_unsupported_fatal_when_window_held nativeOk heldState).2.1 (by decide) 10
      (by decide),
    (isDown_unsupported_fatal_when_window_held nativeOk State.initial).2.2.1 rfl 2,
    (isDown_unsupported_fatal_when_window_held nativeOk State.initial).2.2.2 rfl 10⟩

/-- C2 (as stated, refuted): after a successful `lovrPlatformCreateWindow`
followed by `lovrPlatformDestroy` the state still holds the handle, and
`lovrPlatformHasWindow` returns `true`. -/
theorem destroy_keeps_window_handle :
    (lovrPlatformCreateWindow nativeOk sampleFlags State.initial).ret = true ∧
    (lovrPlatformDestroy
      (lovrPlatformCreateWindow nativeOk sampleFlags State.initial).state).state.window = 200 ∧
    lovrPlatformHasWindow (lovrPlatformDestroy
      (lovrPlatformCreateWindow nativeOk sampleFlags State.initial).state).state = true := by
  refine ⟨rfl, rfl, rfl⟩

/-- C2 (amended): `lovrPlatformDestroy` issues the native teardown request and
nothing else, and leaves the whole state record as it was; so
`lovrPlatformHasWindow` returns after it what it returned before it. -/
theorem destroy_terminates_and_keeps_state (s : State) :
    (lovrPlatformDestroy s).calls = [NativeCall.terminate] ∧
    (lovrPlatformDestroy s).state = s ∧
    lovrPlatformHasWindow (lovrPlatformDestroy s).state = lovrPlatformHasWindow s := by
  refine ⟨rfl, rfl, rfl⟩

/-- A call of `lovrPlatformCreateWindow` in a state that holds a window. -/
theorem createWindow_of_held (n : Native) (flags : WindowFlags) (s : State)
    (h : s.window ≠ 0) : lovrPlatformCreateWindow n flags s = ⟨true, s, []⟩ := by
  simp [lovrPlatformCreateWindow, h]

/-- A call of `lovrPlatformCreateWindow` in a state that holds no window. -/
theorem createWindow_of_free (n : Native) (flags : WindowFlags) (s : State)
    (h : s.window = 0) :
    lovrPlatformCreateWindow n flags s =
      if createdWindow n flags = 0 then ⟨false, s, createRequests n flags⟩
      else ⟨true, { s with window := createdWindow n flags },
        createRequests n flags ++ setupRequests flags (createdWindow n flags)⟩ := by
  unfold lovrPlatformCreateWindow
  by_cases hc : createdWindow n flags = 0
  · have hs : ({ s with window := 0 } : State) = s := by
      cases s
      simp_all
    simp [h, hc, hs]
  · simp [h, hc]

/-- A call of `lovrPlatformCreateWindow` that returns `true` ends with a window held. -/
theorem createWindow_ret_true_held (n : Native) (flags : WindowFlags) (s : State)
    (h : (lovrPlatformCreateWindow n flags s).ret = true) :
    (lovrPlatformCreateWindow n flags s).state.window ≠ 0 := by
  by_cases hw : s.window = 0
  · rw [createWindow_of_free n flags s hw] at h ⊢
    by_cases hc : createdWindow n flags = 0
    · simp [hc] at h
    · simp [hc]
  · rw [createWindow_of_held n flags s hw]
    exact hw

/-- C3: in a state that holds a window, `lovrPlatformCreateWindow` returns `true`,
issues no native request at all and leaves the state record unchanged, for
every flags record and native library; hence when a first call returns `true`,
a second call in a row (with any flags) returns `true` too, issues no native
request, and leaves the state, so the handle, as the first call left it. -/
theorem createWindow_idempotent (n n2 : Native) (flags flags2 : WindowFlags) (s : State) :
    (s.window ≠ 0 →
      (lovrPlatformCreateWindow n flags s).ret = true ∧
      (lovrPlatformCreateWindow n flags s).calls = [] ∧
      (lovrPlatformCreateWindow n flags s).state = s) ∧
    ((lovrPlatformCreateWindow n flags s).ret = true →
      (lovrPlatformCreateWindow n2 flags2 (lovrPlatformCreateWindow n flags s).state).ret = true ∧
      (lovrPlatformCreateWindow n2 flags2 (lovrPlatformCreateWindow n flags s).state).calls = [] ∧
      (lovrPlatformCreateWindow n2 flags2 (lovrPlatformCreateWindow n flags s).state).state
        = (lovrPlatformCreateWindow n flags s).state ∧
      (lovrPlatformCreateWindow n2 flags2 (lovrPlatformCreateWindow n flags s).state).state.window
        = (lovrPlatformCreateWindow n flags s).state.window) := by
  constructor
  · intro h
    rw [createWindow_of_held n flags s h]
    exact ⟨rfl, rfl, rfl⟩
  · intro h
    rw [createWindow_of_held n2 flags2 _ (createWindow_ret_true_held n flags s h)]
    exact ⟨rfl, rfl, rfl, rfl⟩

/-- Witness for C3: a held window `200` with callbacks registered, and a first
call that creates the window from the initial state. -/
theorem createWindow_idempotent_witness :
    ((⟨200, 7, 8, 9⟩ : State).window ≠ 0 ∧
      (lovrPlatformCreateWindow nativeFail fullscreenFlags ⟨200, 7, 8, 9⟩).ret = true ∧
      (lovrPlatformCreateWindow nativeFail fullscreenFlags ⟨200, 7, 8, 9⟩).calls = [] ∧
      (lovrPlatformCreateWindow nativeFail fullscreenFlags ⟨200, 7, 8, 9⟩).state
        = ⟨200, 7, 8, 9⟩) ∧
    ((lovrPlatformCreateWindow nativeOk sampleFlags State.initial).ret = true ∧
      (lovrPlatformCreateWindow nativeFail fullscreenFlags
        (lovrPlatformCreateWindow nativeOk sampleFlags State.initial).state).ret = true ∧
      (lovrPlatformCreateWindow nativeFail fullscreenFlags
        (lovrPlatformCreateWindow nativeOk sampleFlags State.initial).state).state.window
        = 200) :=
  ⟨⟨by decide,
      (createWindow_idempotent nativeFail nativeFail fullscreenFlags fullscreenFlags
        ⟨200, 7, 8, 9⟩).1 (by decide)⟩,
    ⟨rfl,
      ((createWindow_idempotent nativeOk nativeFail sampleFlags fullscreenFlags
        State.initial).2 rfl).1,
      ((createWindow_idempotent nativeOk nativeFail sampleFlags fullscreenFlags
        State.initial).2 rfl).2.2.2⟩⟩

/-- C4: when no window is held and the native library answers `NULL` to the
creation request the shim issues, `lovrPlatformCreateWindow` returns `false` and
leaves the state record unchanged (no handle, the three callback slots as they
were), and every native request it issued is a window hint or the creation
request itself: no icon, context, event-callback or swap-interval request. -/
theorem createWindow_failure_keeps_state (n : Native) (flags : WindowFlags) (s : State)
    (hw : s.window = 0)
    (hfail : ∀ w h t m sh, NativeCall.createWindow w h t m sh ∈
      (lovrPlatformCreateWindow n flags s).calls → n.glfwCreateWindow w h t m sh = 0) :
    (lovrPlatformCreateWindow n flags s).ret = false ∧
    (lovrPlatformCreateWindow n flags s).state = s ∧
    (lovrPlatformCreateWindow n flags s).state.window = 0 ∧
    (∀ c ∈ (lovrPlatformCreateWindow n flags s).calls,
      (∃ hint value, c = NativeCall.windowHint hint value) ∨
      (∃ w h t m sh, c = NativeCall.createWindow w h t m sh)) := by
  have hnull : createdWindow n flags = 0 := by
    apply hfail
    rw [createWindow_of_free n flags s hw]
    split <;> simp [createRequests]
  rw [createWindow_of_free n flags s hw]
  simp only [hnull, if_true]
  refine ⟨trivial, trivial, hw, ?_⟩
  intro c hc
  simp only [createRequests, baseHints, fullscreenHints, List.mem_append, List.mem_cons,
    List.mem_singleton, List.not_mem_nil, or_false] at hc
  rcases hc with (hc | hc) | hc
  · left
    rcases hc with hc | hc | hc | hc | hc | hc | hc <;> exact ⟨_, _, hc⟩
  · left
    split at hc
    · simp only [List.mem_cons, List.mem_singleton, List.not_mem_nil, or_false] at hc
      rcases hc with hc | hc | hc | hc <;> exact ⟨_, _, hc⟩
    · simp at hc
  · right
    exact ⟨_, _, _, _, _, hc⟩

/-- Witness for C4: the initial state with callbacks registered, on a native
library that fails to create the window. -/
theorem createWindow_failure_keeps_state_witness :
    (lovrPlatformCreateWindow nativeFail fullscreenFlags ⟨0, 7, 8, 9⟩).ret = false ∧
    (lovrPlatformCreateWindow nativeFail fullscreenFlags ⟨0, 7, 8, 9⟩).state = ⟨0, 7, 8, 9⟩ :=
  ⟨(createWindow_failure_keeps_state nativeFail fullscreenFlags ⟨0, 7, 8, 9⟩ rfl
      (fun _ _ _ _ _ _ => rfl)).1,
    (createWindow_failure_keeps_state nativeFail fullscreenFlags ⟨0, 7, 8, 9⟩ rfl
      (fun _ _ _ _ _ _ => rfl)).2.1⟩

/-- C5: when no window is held, `lovrPlatformGetWindowSize` and
`lovrPlatformGetFramebufferSize` leave both outputs equal to 0 whatever the
caller's values were, and `lovrPlatformGetMousePosition` sets both outputs to
the zero `double`; in every state the two size queries agree with the
specification's unconditional write of 0. -/
theorem size_and_position_zero_without_window (n : Native) (s : State)
    (width height : Nat) (x y : F64) :
    (s.window = 0 →
      lovrPlatformGetWindowSize n s width height = (0, 0) ∧
      lovrPlatformGetFramebufferSize n s width height = (0, 0) ∧
      lovrPlatformGetMousePosition n s x y = (f64Zero, f64Zero)) ∧
    lovrPlatformGetWindowSize n s width height
      = getSizeSpec n.glfwGetWindowSize s width height ∧
    lovrPlatformGetFramebufferSize n s width height
      = getSizeSpec n.glfwGetFramebufferSize s width height := by
  refine ⟨?_, ?_, ?_⟩
  · intro hw
    simp [lovrPlatformGetWindowSize, lovrPlatformGetFramebufferSize,
      lovrPlatformGetMousePosition, hw]
  · by_cases hw : s.window = 0 <;>
      simp [lovrPlatformGetWindowSize, getSizeSpec, hw]
  · by_cases hw : s.window = 0 <;>
      simp [lovrPlatformGetFramebufferSize, getSizeSpec, hw]

/-- Witness for C5: the initial state with caller values 640 and 0. -/
theorem size_and_position_zero_without_window_witness :
    State.initial.window = 0 ∧
    lovrPlatformGetWindowSize nativeOk State.initial 640 0 = (0, 0) ∧
    lovrPlatformGetFramebufferSize nativeOk State.initial 640 0 = (0, 0) ∧
    lovrPlatformGetMousePosition nativeOk State.initial 5 6 = (f64Zero, f64Zero) :=
  ⟨rfl, (size_and_position_zero_without_window nativeOk State.initial 640 0 5 6).1 rfl⟩

/-- C6: with a mouse-button callback registered, a native mouse-button event
invokes it exactly once when the button is the native left or right one, with
`MOUSE_LEFT` for left and `MOUSE_RIGHT` for right and with an action that is
`BUTTON_PRESSED` exactly when the native action is the press action and
`BUTTON_RELEASED` for every other action value; for every other button nothing
is invoked. -/
theorem onMouseButton_left_right_only (s : State) (cb window : Ptr) (b a mods : Int)
    (hcb : cb ≠ 0) :
    (b = GLFW_MOUSE_BUTTON_LEFT → ∃ action : ButtonAction,
      onMouseButton (lovrPlatformOnMouseButton cb s) window b a mods
        = [Invocation.mouseButton cb MOUSE_LEFT action] ∧
      (action = BUTTON_PRESSED ↔ a = GLFW_PRESS) ∧
      (a ≠ GLFW_PRESS → action = BUTTON_RELEASED)) ∧
    (b = GLFW_MOUSE_BUTTON_RIGHT → ∃ action : ButtonAction,
      onMouseButton (lovrPlatformOnMouseButton cb s) window b a mods
        = [Invocation.mouseButton cb MOUSE_RIGHT action] ∧
      (action = BUTTON_PRESSED ↔ a = GLFW_PRESS) ∧
      (a ≠ GLFW_PRESS → action = BUTTON_RELEASED)) ∧
    (b ≠ GLFW_MOUSE_BUTTON_LEFT → b ≠ GLFW_MOUSE_BUTTON_RIGHT →
      onMouseButton (lovrPlatformOnMouseButton cb s) window b a mods = []) := by
  refine ⟨?_, ?_, ?_⟩
  · intro hb
    refine ⟨if a = GLFW_PRESS then BUTTON_PRESSED else BUTTON_RELEASED, ?_, ?_, ?_⟩
    · simp [onMouseButton, lovrPlatformOnMouseButton, hcb, hb]
    · by_cases ha : a = GLFW_PRESS <;> simp [ha, BUTTON_PRESSED, BUTTON_RELEASED]
    · intro ha
      simp [ha]
  · intro hb
    refine ⟨if a = GLFW_PRESS then BUTTON_PRESSED else BUTTON_RELEASED, ?_, ?_, ?_⟩
    · simp [onMouseButton, lovrPlatformOnMouseButton, hcb, hb, GLFW_MOUSE_BUTTON_LEFT,
        GLFW_MOUSE_BUTTON_RIGHT]
    · by_cases ha : a = GLFW_PRESS <;> simp [ha, BUTTON_PRESSED, BUTTON_RELEASED]
    · intro ha
      simp [ha]
  · intro hl hr
    simp [onMouseButton, hl, hr]

/-- Witness for C6: callback `7`; a left press, a right release, a middle press. -/
theorem onMouseButton_left_right_only_witness :
    onMouseButton (lovrPlatformOnMouseButton 7 heldState) 200 0 1 0
      = [Invocation.mouseButton 7 MOUSE_LEFT BUTTON_PRESSED] ∧
    onMouseButton (lovrPlatformOnMouseButton 7 heldState) 200 1 0 0
      = [Invocation.mouseButton 7 MOUSE_RIGHT BUTTON_RELEASED] ∧
    onMouseButton (lovrPlatformOnMouseButton 7 heldState) 200 2 1 0 = [] :=
  ⟨by decide, by decide,
    (onMouseButton_left_right_only heldState 7 200 2 1 0 (by decide)).2.2
      (by decide) (by decide)⟩

/-- C8: with a resize callback registered, a native resize event with signed
32-bit width and height invokes it exactly once with both values reduced
modulo `2^32`; for non-negative width and height the callback receives exactly
those values, and an 800 by 600 event delivers `(800, 600)`. -/
theorem onWindowResize_delivers_u32 (s : State) (cb window : Ptr) (w h : Int)
    (hcb : cb ≠ 0)
    (hw : -2147483648 ≤ w ∧ w < 2147483648) (hh : -2147483648 ≤ h ∧ h < 2147483648) :
    (∃ uw uh : Nat,
      onWindowResize (lovrPlatformOnWindowResize cb s) window w h
        = [Invocation.windowResize cb uw uh] ∧
      (uw : Int) = w % 4294967296 ∧ (uh : Int) = h % 4294967296 ∧
      (0 ≤ w → (uw : Int) = w) ∧ (0 ≤ h → (uh : Int) = h)) ∧
    onWindowResize (lovrPlatformOnWindowResize cb s) window 800 600
      = [Invocation.windowResize cb 800 600] := by
  have key : ∀ x : Int, ((toU32 x : Nat) : Int) = x % 4294967296 := by
    intro x
    unfold toU32
    omega
  refine ⟨⟨toU32 w, toU32 h, ?_, key w, key h, ?_, ?_⟩, ?_⟩
  · simp [onWindowResize, lovrPlatformOnWindowResize, hcb]
  · intro h0
    rw [key]
    omega
  · intro h0
    rw [key]
    omega
  · simp [onWindowResize, lovrPlatformOnWindowResize, hcb, toU32]

/-- Witness for C8: callback `7`, an event of width `-1` and height `768`. -/
theorem onWindowResize_delivers_u32_witness :
    onWindowResize (lovrPlatformOnWindowResize 7 heldState) 200 (-1) 768
      = [Invocation.windowResize 7 4294967295 768] ∧
    ((∃ uw uh : Nat,
      onWindowResize (lovrPlatformOnWindowResize 7 heldState) 200 (-1) 768
        = [Invocation.windowResize 7 uw uh] ∧
      (uw : Int) = (-1) % 4294967296 ∧ (uh : Int) = 768 % 4294967296 ∧
      ((0 : Int) ≤ -1 → (uw : Int) = -1) ∧ ((0 : Int) ≤ 768 → (uh : Int) = 768)) ∧
    onWindowResize (lovrPlatformOnWindowResize 7 heldState) 200 800 600
      = [Invocation.windowResize 7 800 600]) :=
  ⟨by decide,
    onWindowResize_delivers_u32 heldState 7 200 (-1) 768 (by decide)
      (by decide) (by decide)⟩

/-- Registrations applied after others. -/
theorem registerAll_append (s : State) (xs ys : List Registration) :
    registerAll s (xs ++ ys) = registerAll (registerAll s xs) ys := by
  simp [registerAll, List.foldl_append]

/-- Registrations of the other kinds leave the close slot alone. -/
theorem registerAll_keeps_close (rs : List Registration) (s : State)
    (h : ∀ r ∈ rs, r.isClose = false) :
    (registerAll s rs).onWindowClose = s.onWindowClose := by
  induction rs generalizing s with
  | nil => rfl
  | cons r rs ih =>
    have hr := h r (List.mem_cons_self r rs)
    have ht : ∀ x ∈ rs, x.isClose = false := fun x hx => h x (List.mem_cons_of_mem r hx)
    show (registerAll (register s r) rs).onWindowClose = s.onWindowClose
    rw [ih (register s r) ht]
    cases r <;> simp_all [register, Registration.isClose, lovrPlatformOnWindowResize,
      lovrPlatformOnMouseButton]

/-- Registrations of the other kinds leave the resize slot alone. -/
theorem registerAll_keeps_resize (rs : List Registration) (s : State)
    (h : ∀ r ∈ rs, r.isResize = false) :
    (registerAll s rs).onWindowResize = s.onWindowResize := by
  induction rs generalizing s with
  | nil => rfl
  | cons r rs ih =>
    have hr := h r (List.mem_cons_self r rs)
    have ht : ∀ x ∈ rs, x.isResize = false := fun x hx => h x (List.mem_cons_of_mem r hx)
    show (registerAll (register s r) rs).onWindowResize = s.onWindowResize
    rw [ih (register s r) ht]
    cases r <;> simp_all [register, Registration.isResize, lovrPlatformOnWindowClose,
      lovrPlatformOnMouseButton]

/-- Registrations of the other kinds leave the mouse-button slot alone. -/
theorem registerAll_keeps_mouse (rs : List Registration) (s : State)
    (h : ∀ r ∈ rs, r.isMouse = false) :
    (registerAll s rs).onMouseButton = s.onMouseButton := by
  induction rs generalizing s with
  | nil => rfl
  | cons r rs ih =>
    have hr := h r (List.mem_cons_self r rs)
    have ht : ∀ x ∈ rs, x.isMouse = false := fun x hx => h x (List.mem_cons_of_mem r hx)
    show (registerAll (register s r) rs).onMouseButton = s.onMouseButton
    rw [ih (register s r) ht]
    cases r <;> simp_all [register, Registration.isMouse, lovrPlatformOnWindowClose,
      lovrPlatformOnWindowResize]

/-- The slot a sequence of registrations ends with, when `cb` is the latest
registration for the close event. -/
theorem registerAll_latest_close (s : State) (regs rest : List Registration) (cb : Ptr)
    (h : ∀ r ∈ rest, r.isClose = false) :
    (registerAll s (regs ++ Registration.close cb :: rest)).onWindowClose = cb := by
  rw [registerAll_append]
  show (registerAll (register (registerAll s regs) (Registration.close cb)) rest).onWindowClose
    = cb
  rw [registerAll_keeps_close rest _ h]
  rfl

/-- The slot a sequence of registrations ends with, when `cb` is the latest
registration for the resize event. -/
theorem registerAll_latest_resize (s : State) (regs rest : List Registration) (cb : Ptr)
    (h : ∀ r ∈ rest, r.isResize = false) :
    (registerAll s (regs ++ Registration.resize cb :: rest)).onWindowResize = cb := by
  rw [registerAll_append]
  show (registerAll (register (registerAll s regs) (Registration.resize cb)) rest).onWindowResize
    = cb
  rw [registerAll_keeps_resize rest _ h]
  rfl

/-- The slot a sequence of registrations ends with, when `cb` is the latest
registration for the mouse-button event. -/
theorem registerAll_latest_mouse (s : State) (regs rest : List Registration) (cb : Ptr)
    (h : ∀ r ∈ rest, r.isMouse = false) :
    (registerAll s (regs ++ Registration.mouse cb :: rest)).onMouseButton = cb := by
  rw [registerAll_append]
  show (registerAll (register (registerAll s regs) (Registration.mouse cb)) rest).onMouseButton
    = cb
  rw [registerAll_keeps_mouse rest _ h]
  rfl

/-- C7 (as stated, refuted): with callback `7` the most recently registered
mouse-button callback, a native mouse-button event for the middle button (`2`)
invokes nothing, not the callback exactly once. -/
theorem mouse_event_middle_button_invokes_nothing :
    (registerAll State.initial [Registration.mouse 5, Registration.mouse 7]).onMouseButton = 7 ∧
    dispatch (registerAll State.initial [Registration.mouse 5, Registration.mouse 7])
      (NativeEvent.mouseButton 200 2 1 0) = [] := by
  refine ⟨rfl, by decide⟩

/-- C7 (amended): after any sequence of registrations whose latest registration
for an event kind is `cb`, a native close event and a native resize event
invoke `cb` alone, exactly once, when `cb` is not null, and nothing when it is
null; a native mouse-button event does so when its button is the native left or
right one, and invokes nothing for every other button; from the initial state,
with no registration for a kind, an event of that kind invokes nothing; and a
registration changes only its own slot, not the other two slots nor the window
handle. -/
theorem registration_latest_wins (s : State) (regs rest : List Registration)
    (cb window : Ptr) (w h b a mods : Int) :
    ((∀ r ∈ rest, r.isClose = false) →
      dispatch (registerAll s (regs ++ Registration.close cb :: rest)) (NativeEvent.close window)
        = if cb ≠ 0 then [Invocation.windowClose cb] else []) ∧
    ((∀ r ∈ rest, r.isResize = false) →
      dispatch (registerAll s (regs ++ Registration.resize cb :: rest))
          (NativeEvent.resize window w h)
        = if cb ≠ 0 then [Invocation.windowResize cb (toU32 w) (toU32 h)] else []) ∧
    ((∀ r ∈ rest, r.isMouse = false) →
      (cb ≠ 0 → (b = GLFW_MOUSE_BUTTON_LEFT ∨ b = GLFW_MOUSE_BUTTON_RIGHT) →
        ∃ button action,
          dispatch (registerAll s (regs ++ Registration.mouse cb :: rest))
            (NativeEvent.mouseButton window b a mods)
          = [Invocation.mouseButton cb button action]) ∧
      (¬ (b = GLFW_MOUSE_BUTTON_LEFT ∨ b = GLFW_MOUSE_BUTTON_RIGHT) →
        dispatch (registerAll s (regs ++ Registration.mouse cb :: rest))
          (NativeEvent.mouseButton window b a mods) = []) ∧
      (cb = 0 →
        dispatch (registerAll s (regs ++ Registration.mouse cb :: rest))
          (NativeEvent.mouseButton window b a mods) = [])) ∧
    ((∀ r ∈ rest, r.isClose = false) →
      dispatch (registerAll State.initial rest) (NativeEvent.close window) = []) ∧
    ((∀ r ∈ rest, r.isResize = false) →
      dispatch (registerAll State.initial rest) (NativeEvent.resize window w h) = []) ∧
    ((∀ r ∈ rest, r.isMouse = false) →
      dispatch (registerAll State.initial rest) (NativeEvent.mouseButton window b a mods) = []) ∧
    (lovrPlatformOnWindowClose cb s = { s with onWindowClose := cb } ∧
      lovrPlatformOnWindowResize cb s = { s with onWindowResize := cb } ∧
      lovrPlatformOnMouseButton cb s = { s with onMouseButton := cb }) ∧
    ((lovrPlatformOnWindowClose cb s).window = s.window ∧
      (lovrPlatformOnWindowClose cb s).onWindowResize = s.onWindowResize ∧
      (lovrPlatformOnWindowClose cb s).onMouseButton = s.onMouseButton ∧
      (lovrPlatformOnWindowResize cb s).window = s.window ∧
      (lovrPlatformOnWindowResize cb s).onWindowClose = s.onWindowClose ∧
      (lovrPlatformOnWindowResize cb s).onMouseButton = s.onMouseButton ∧
      (lovrPlatformOnMouseButton cb s).window = s.window ∧
      (lovrPlatformOnMouseButton cb s).onWindowClose = s.onWindowClose ∧
      (lovrPlatformOnMouseButton cb s).onWindowResize = s.onWindowResize) := by
  refine ⟨?_, ?_, ?_, ?_, ?_, ?_, ⟨rfl, rfl, rfl⟩, ⟨rfl, rfl, rfl, rfl, rfl, rfl, rfl, rfl, rfl⟩⟩
  · intro hr
    simp only [dispatch, onWindowClose, registerAll_latest_close s regs rest cb hr]
  · intro hr
    simp only [dispatch, onWindowResize, registerAll_latest_resize s regs rest cb hr]
  · intro hr
    refine ⟨?_, ?_, ?_⟩
    · intro hcb hb
      refine ⟨if b = GLFW_MOUSE_BUTTON_LEFT then MOUSE_LEFT else MOUSE_RIGHT,
        if a = GLFW_PRESS then BUTTON_PRESSED else BUTTON_RELEASED, ?_⟩
      simp only [dispatch, onMouseButton, registerAll_latest_mouse s regs rest cb hr]
      rw [if_pos ⟨hcb, hb⟩]
    · intro hb
      simp only [dispatch, onMouseButton, registerAll_latest_mouse s regs rest cb hr]
      rw [if_neg (fun hx => hb hx.2)]
    · intro hcb
      simp only [dispatch, onMouseButton, registerAll_latest_mouse s regs rest cb hr]
      rw [if_neg (fun hx => hx.1 hcb)]
  · intro hr
    simp [dispatch, onWindowClose, registerAll_keeps_close rest _ hr, State.initial]
  · intro hr
    simp [dispatch, onWindowResize, registerAll_keeps_resize rest _ hr, State.initial]
  · intro hr
    simp [dispatch, onMouseButton, registerAll_keeps_mouse rest _ hr, State.initial]

/-- Witness for C7 (amended): close callbacks `5` then `7` with a resize
registration in between and after; the close event invokes `7` once. -/
theorem registration_latest_wins_witness :
    (∀ r ∈ [Registration.resize 9], r.isClose = false) ∧
    dispatch (registerAll heldState
      ([Registration.close 5, Registration.resize 8] ++
        Registration.close 7 :: [Registration.resize 9])) (NativeEvent.close 200)
      = [Invocation.windowClose 7] :=
  ⟨by decide,
    (registration_latest_wins heldState [Registration.close 5, Registration.resize 8]
      [Registration.resize 9] 7 200 800 600 0 1 0).1 (by decide)⟩

/-- Every operation other than `lovrPlatformCreateWindow` leaves the handle alone. -/
theorem step_keeps_window (n : Native) (op : Op) (s : State)
    (h : ∀ flags, op ≠ Op.createWindow flags) : (step n op s).window = s.window := by
  cases op with
  | createWindow flags => exact absurd rfl (h flags)
  | setMouseMode mode =>
    simp only [step, lovrPlatformSetMouseMode]
    split <;> rfl
  | _ => rfl

/-- A run over a sequence followed by one more operation. -/
theorem run_append_single (ops : List (Native × Op)) (s : State) (n : Native) (op : Op) :
    run s (ops ++ [(n, op)]) = step n op (run s ops) := by
  induction ops generalizing s with
  | nil => rfl
  | cons x xs ih =>
    obtain ⟨m, o⟩ := x
    show run (step m o s) (xs ++ [(n, op)]) = step n op (run (step m o s) xs)
    exact ih (step m o s)

/-- A call of `lovrPlatformCreateWindow` that returns `false` from a state with no
window ends with no window. -/
theorem createWindow_ret_false_free (n : Native) (flags : WindowFlags) (s : State)
    (hw : s.window = 0) (h : (lovrPlatformCreateWindow n flags s).ret = false) :
    (lovrPlatformCreateWindow n flags s).state.window = 0 := by
  rw [createWindow_of_free n flags s hw] at h ⊢
  by_cases hc : createdWindow n flags = 0
  · simpa [hc] using hw
  · simp [hc] at h

/-- While no call of `lovrPlatformCreateWindow` returns `true`, no window is held. -/
theorem run_without_success (ops : List (Native × Op)) (s : State) (hw : s.window = 0)
    (h : ∀ pre n flags post, ops = pre ++ (n, Op.createWindow flags) :: post →
      (lovrPlatformCreateWindow n flags (run s pre)).ret = false) :
    (run s ops).window = 0 := by
  induction ops generalizing s with
  | nil => exact hw
  | cons x xs ih =>
    obtain ⟨m, o⟩ := x
    show (run (step m o s) xs).window = 0
    apply ih
    · by_cases hc : ∃ flags, o = Op.createWindow flags
      · obtain ⟨flags, rfl⟩ := hc
        exact createWindow_ret_false_free m flags s hw (h [] m flags xs rfl)
      · rw [step_keeps_window m o s (fun flags hf => hc ⟨flags, hf⟩)]
        exact hw
    · intro pre n flags post hx
      have := h ((m, o) :: pre) n flags post (by rw [hx]; rfl)
      exact this

/-- C9: over every sequence of operations from the initial state,
`lovrPlatformHasWindow` returns `false` as long as no call of
`lovrPlatformCreateWindow` in the sequence has returned `true`, and returns `true`
right after every call of `lovrPlatformCreateWindow` that returns `true`; every
operation other than `lovrPlatformCreateWindow` leaves the window handle
unchanged; and `lovrPlatformHasWindow` returns `true` exactly when a handle is
held. -/
theorem hasWindow_tracks_createWindow :
    (∀ ops : List (Native × Op),
      (∀ pre n flags post, ops = pre ++ (n, Op.createWindow flags) :: post →
        (lovrPlatformCreateWindow n flags (run State.initial pre)).ret = false) →
      lovrPlatformHasWindow (run State.initial ops) = false) ∧
    (∀ (ops : List (Native × Op)) (n : Native) (flags : WindowFlags),
      (lovrPlatformCreateWindow n flags (run State.initial ops)).ret = true →
      lovrPlatformHasWindow (run State.initial (ops ++ [(n, Op.createWindow flags)])) = true) ∧
    (∀ (n : Native) (op : Op) (s : State), (∀ flags, op ≠ Op.createWindow flags) →
      (step n op s).window = s.window) ∧
    (∀ s : State, lovrPlatformHasWindow s = true ↔ s.window ≠ 0) := by
  refine ⟨?_, ?_, step_keeps_window, ?_⟩
  · intro ops h
    simp [lovrPlatformHasWindow, run_without_success ops State.initial rfl h]
  · intro ops n flags h
    rw [run_append_single]
    simpa [lovrPlatformHasWindow, step] using createWindow_ret_true_held n flags _ h
  · intro s
    simp [lovrPlatformHasWindow]

/-- Witness for C9: a failed creation followed by a teardown leaves no window;
a creation that succeeds after it gives a window; a teardown of a held window
keeps the handle. -/
theorem hasWindow_tracks_createWindow_witness :
    lovrPlatformHasWindow (run State.initial
      [(nativeFail, Op.createWindow sampleFlags), (nativeOk, Op.destroy)]) = false ∧
    lovrPlatformHasWindow (run State.initial
      ([(nativeFail, Op.createWindow sampleFlags), (nativeOk, Op.destroy)] ++
        [(nativeOk, Op.createWindow sampleFlags)])) = true ∧
    (step nativeOk Op.destroy heldState).window = heldState.window :=
  ⟨hasWindow_tracks_createWindow.1
      [(nativeFail, Op.createWindow sampleFlags), (nativeOk, Op.destroy)]
      (by
        intro pre n flags post h
        rcases pre with _ | ⟨x, _ | ⟨y, pre⟩⟩
        · simp only [List.nil_append, List.cons.injEq, Prod.mk.injEq, Op.createWindow.injEq] at h
          obtain ⟨⟨rfl, rfl⟩, _⟩ := h
          rfl
        · simp at h
        · simp at h),
    hasWindow_tracks_createWindow.2.1
      [(nativeFail, Op.createWindow sampleFlags), (nativeOk, Op.destroy)] nativeOk sampleFlags rfl,
    hasWindow_tracks_createWindow.2.2.1 nativeOk Op.destroy heldState (by intro flags; simp)⟩

/-- C10 (as stated, refuted): with fullscreen set, no window held, and flags
that carry 800 by 600 on a monitor whose mode is 1920 by 1080, the native
creation request is for 800 by 600, not for the monitor's resolution. -/
theorem fullscreen_uses_flags_size :
    fullscreenFlags.fullscreen = true ∧ State.initial.window = 0 ∧
    (nativeOk.glfwGetVideoMode nativeOk.glfwGetPrimaryMonitor).width = 1920 ∧
    (nativeOk.glfwGetVideoMode nativeOk.glfwGetPrimaryMonitor).height = 1080 ∧
    NativeCall.createWindow 800 600 "demo" 100 0 ∈
      (lovrPlatformCreateWindow nativeOk fullscreenFlags State.initial).calls ∧
    NativeCall.createWindow 1920 1080 "demo" 100 0 ∉
      (lovrPlatformCreateWindow nativeOk fullscreenFlags State.initial).calls := by
  refine ⟨rfl, rfl, rfl, rfl, by decide, by decide⟩

/-- C10 (amended): with no window held, the native creation request carries as
width `flags.width` converted to `i32` when it is nonzero and the width of the
primary monitor's current mode when it is zero, likewise for the height,
whether fullscreen is set or not, and the title of the flags; with fullscreen
set its monitor argument is the primary monitor and the refresh-rate hint
issued is the mode's refresh rate, so with `flags.width` and `flags.height` both
zero the request is for the monitor's own resolution; with fullscreen not set
the monitor argument is null and no refresh-rate hint is issued. -/
theorem createWindow_request_arguments (n : Native) (flags : WindowFlags) (s : State)
    (hw : s.window = 0) :
    (∀ w h t m sh, NativeCall.createWindow w h t m sh ∈ (lovrPlatformCreateWindow n flags s).calls ↔
      (w = (if flags.width ≠ 0 then toI32 flags.width
          else (n.glfwGetVideoMode n.glfwGetPrimaryMonitor).width) ∧
        h = (if flags.height ≠ 0 then toI32 flags.height
          else (n.glfwGetVideoMode n.glfwGetPrimaryMonitor).height) ∧
        t = flags.title ∧
        m = (if flags.fullscreen then n.glfwGetPrimaryMonitor else 0) ∧ sh = 0)) ∧
    (flags.fullscreen = true →
      ∀ v, NativeCall.windowHint GLFW_REFRESH_RATE v ∈ (lovrPlatformCreateWindow n flags s).calls ↔
        v = (n.glfwGetVideoMode n.glfwGetPrimaryMonitor).refreshRate) ∧
    (flags.fullscreen = true → flags.width = 0 → flags.height = 0 →
      NativeCall.createWindow (n.glfwGetVideoMode n.glfwGetPrimaryMonitor).width
        (n.glfwGetVideoMode n.glfwGetPrimaryMonitor).height flags.title
        n.glfwGetPrimaryMonitor 0 ∈ (lovrPlatformCreateWindow n flags s).calls) ∧
    (flags.fullscreen = false →
      ∀ v, NativeCall.windowHint GLFW_REFRESH_RATE v ∉
        (lovrPlatformCreateWindow n flags s).calls) := by
  have hcalls : ∀ c, c ∈ (lovrPlatformCreateWindow n flags s).calls ↔
      (c ∈ createRequests n flags ∨
        (createdWindow n flags ≠ 0 ∧ c ∈ setupRequests flags (createdWindow n flags))) := by
    intro c
    rw [createWindow_of_free n flags s hw]
    by_cases hc : createdWindow n flags = 0 <;> simp [hc]
  have hcreate : ∀ w h t m sh, NativeCall.createWindow w h t m sh ∈
      (lovrPlatformCreateWindow n flags s).calls ↔
      (w = createWidth n flags ∧ h = createHeight n flags ∧ t = flags.title ∧
        m = createMonitor n flags ∧ sh = 0) := by
    intro w h t m sh
    rw [hcalls]
    cases hfs : flags.fullscreen <;> by_cases hi : flags.icon.data = 0 <;>
      simp [createRequests, setupRequests, baseHints, fullscreenHints, hfs, hi]
  have hrate : ∀ v, NativeCall.windowHint GLFW_REFRESH_RATE v ∈
      (lovrPlatformCreateWindow n flags s).calls ↔
      (flags.fullscreen = true ∧ v = (createMode n).refreshRate) := by
    intro v
    rw [hcalls]
    cases hfs : flags.fullscreen <;> by_cases hi : flags.icon.data = 0 <;>
      simp [createRequests, setupRequests, baseHints, fullscreenHints, hfs, hi,
        GLFW_REFRESH_RATE, GLFW_CONTEXT_VERSION_MAJOR, GLFW_CONTEXT_VERSION_MINOR,
        GLFW_OPENGL_PROFILE, GLFW_OPENGL_FORWARD_COMPAT, GLFW_SAMPLES, GLFW_RESIZABLE,
        GLFW_SRGB_CAPABLE, GLFW_RED_BITS, GLFW_GREEN_BITS, GLFW_BLUE_BITS]
  refine ⟨?_, ?_, ?_, ?_⟩
  · intro w h t m sh
    rw [hcreate]
    rfl
  · intro hfs v
    rw [hrate]
    simp [hfs, createMode]
  · intro hfs h1 h2
    rw [hcreate]
    simp [createWidth, createHeight, createMonitor, createMode, hfs, h1, h2]
  · intro hfs v
    rw [hrate]
    simp [hfs]

/-- Witness for C10 (amended): fullscreen flags carrying 800 by 600 from the
initial state. -/
theorem createWindow_request_arguments_witness :
    State.initial.window = 0 ∧
    NativeCall.createWindow 800 600 "demo" 100 0 ∈
      (lovrPlatformCreateWindow nativeOk fullscreenFlags State.initial).calls ∧
    NativeCall.windowHint GLFW_REFRESH_RATE 60 ∈
      (lovrPlatformCreateWindow nativeOk fullscreenFlags State.initial).calls :=
  ⟨rfl,
    ((createWindow_request_arguments nativeOk fullscreenFlags State.initial rfl).1
      800 600 "demo" 100 0).2 (by decide),
    ((createWindow_request_arguments nativeOk fullscreenFlags State.initial rfl).2.1 rfl 60).2
      rfl⟩

end Glfw
